import Mathlib

/-!
A shallow embedding of the koishi-plugin-jieba startup pipeline
(src/src/index.ts together with the two historical revisions kept in the
repository): the switch-based and map-based platform resolvers, the libc
prober, the artifact download handler, and the service startup sequence.
The effectful parts are embedded as functions from an explicit environment
to a list of performed I/O actions paired with the JavaScript result
(normal return or thrown error).  The theorems at the end settle the
specification claims about this code.
-/

namespace KoishiJieba

/-- The error classes thrown by the plugin code. `unsupported` and
`download` model the two classes declared in the source
(`UnsupportedError`, `DownloadError`); `typeError` models a JavaScript
TypeError raised by a property access on `undefined`; `generic` models a
plain `Error` (or a rethrown foreign error), carrying its message. -/
inductive JsError where
  | unsupported (msg : String)
  | download (msg : String)
  | typeError (msg : String)
  | generic (msg : String)
deriving DecidableEq

/-- The JavaScript class name of a thrown error, `none` when nothing was
thrown. -/
def thrownKind {α : Type} : Except JsError α → Option String
  | .ok _ => none
  | .error (.unsupported _) => some "UnsupportedError"
  | .error (.download _) => some "DownloadError"
  | .error (.typeError _) => some "TypeError"
  | .error (.generic _) => some "Error"

/-- The switch statement of `getNativeBinding` (src/src/index.ts lines
131-214, identical in src/unnamed/part_001 lines 85-142) as a function of
the `process.platform` string `p`, the `process.arch` string `a`, and the
boolean `m` returned by the `isMusl()` calls.  A JavaScript `switch` on a
string is a sequence of equality tests, rendered here as an
if-then-else chain in the source order of the cases. -/
def resolveNodeName (p a : String) (m : Bool) : Except JsError String :=
  if p = "android" then
    if a = "arm64" then .ok "jieba.android-arm64"
    else if a = "arm" then .ok "jieba.android-arm-eabi"
    else .error (.unsupported ("Unsupported architecture on Android " ++ a))
  else if p = "win32" then
    if a = "x64" then .ok "jieba.win32-x64-msvc"
    else if a = "ia32" then .ok "jieba.win32-ia32-msvc"
    else if a = "arm64" then .ok "jieba.win32-arm64-msvc"
    else .error (.unsupported ("Unsupported architecture on Windows: " ++ a))
  else if p = "darwin" then
    if a = "x64" then .ok "jieba.darwin-x64"
    else if a = "arm64" then .ok "jieba.darwin-arm64"
    else .error (.unsupported ("Unsupported architecture on macOS: " ++ a))
  else if p = "freebsd" then
    if a ≠ "x64" then
      .error (.unsupported ("Unsupported architecture on FreeBSD: " ++ a))
    else .ok "jieba.freebsd-x64"
  else if p = "linux" then
    if a = "x64" then
      if m then .ok "jieba.linux-x64-musl" else .ok "jieba.linux-x64-gnu"
    else if a = "arm64" then
      if m then .ok "jieba.linux-arm64-musl" else .ok "jieba.linux-arm64-gnu"
    else if a = "arm" then .ok "jieba.linux-arm-gnueabihf"
    else .error (.unsupported ("Unsupported architecture on Linux: " ++ a))
  else
    .error (.unsupported ("Unsupported OS: " ++ p ++ ", architecture: " ++ a))

/-- The two-level platform/arch object literal built by the map-based
resolver of the first historical revision (src/unnamed/part_000 lines
133-155), as an association list.  The Linux `x64` and `arm64` entries
already depend on the `isMusl()` result `m` when the object literal is
evaluated. -/
def platformArchMap (m : Bool) : List (String × List (String × String)) :=
  [ ("android", [("arm64", "jieba.android-arm64"),
                 ("arm", "jieba.android-arm-eabi")]),
    ("win32", [("x64", "jieba.win32-x64-msvc"),
               ("ia32", "jieba.win32-ia32-msvc"),
               ("arm64", "jieba.win32-arm64-msvc")]),
    ("darwin", [("x64", "jieba.darwin-x64"),
                ("arm64", "jieba.darwin-arm64")]),
    ("freebsd", [("x64", "jieba.freebsd-x64")]),
    ("linux", [("x64", if m then "jieba.linux-x64-musl" else "jieba.linux-x64-gnu"),
               ("arm64", if m then "jieba.linux-arm64-musl" else "jieba.linux-arm64-gnu"),
               ("arm", "jieba.linux-arm-gnueabihf")]) ]

/-- The map-based resolver of the first historical revision
(src/unnamed/part_000 lines 156-167): a missing `platformArchMap[platform]`
throws the OS message, a missing `platformArchMap[platform][arch]` throws
the architecture message, otherwise the looked-up entry is the node
name. -/
def resolveNodeNameMap (p a : String) (m : Bool) : Except JsError String :=
  match (platformArchMap m).lookup p with
  | none =>
      .error (.unsupported ("Unsupported OS: " ++ p ++ ", architecture: " ++ a))
  | some archMap =>
    match archMap.lookup a with
    | none =>
        .error (.unsupported ("Unsupported architecture on " ++ p ++ ": " ++ a))
    | some nodeName => .ok nodeName

/-- The (OS, architecture) pairs of the fixed support table. -/
def supportTable : List (String × String) :=
  [("android", "arm64"), ("android", "arm"),
   ("win32", "x64"), ("win32", "ia32"), ("win32", "arm64"),
   ("darwin", "x64"), ("darwin", "arm64"),
   ("freebsd", "x64"),
   ("linux", "x64"), ("linux", "arm64"), ("linux", "arm")]

/-- Whether the OS string has a case in the switch of the resolver. -/
def osSupported (p : String) : Bool :=
  p = "android" || p = "win32" || p = "darwin" || p = "freebsd" || p = "linux"

/-- The message thrown when the OS is absent from the table
(the `default` branch of the switch). -/
def osMsg (p a : String) : String :=
  "Unsupported OS: " ++ p ++ ", architecture: " ++ a

/-- The per-OS message thrown when the OS is known but the architecture is
not (the five inner `default` branches of the switch). -/
def archMsg (p a : String) : String :=
  if p = "android" then "Unsupported architecture on Android " ++ a
  else if p = "win32" then "Unsupported architecture on Windows: " ++ a
  else if p = "darwin" then "Unsupported architecture on macOS: " ++ a
  else if p = "freebsd" then "Unsupported architecture on FreeBSD: " ++ a
  else "Unsupported architecture on Linux: " ++ a

theorem archMsg_take13 (p a : String) :
    (archMsg p a).data.take 13 = "Unsupported a".data := by
  have k : ∀ C x : String, 13 ≤ C.data.length →
      C.data.take 13 = "Unsupported a".data →
      ((C ++ x).data.take 13) = "Unsupported a".data := by
    intro C x hlen hval
    rw [String.data_append, List.take_append_of_le_length hlen, hval]
  unfold archMsg
  split
  · exact k _ _ (by decide) (by decide)
  split
  · exact k _ _ (by decide) (by decide)
  split
  · exact k _ _ (by decide) (by decide)
  split
  · exact k _ _ (by decide) (by decide)
  exact k _ _ (by decide) (by decide)

theorem osMsg_take13 (p a : String) :
    (osMsg p a).data.take 13 = "Unsupported O".data := by
  have h : (osMsg p a).data =
      "Unsupported OS: ".data ++ (p.data ++ (", architecture: ".data ++ a.data)) := by
    simp [osMsg, String.data_append, List.append_assoc]
  rw [h, List.take_append_of_le_length
    (by decide : (13 : Nat) ≤ "Unsupported OS: ".data.length)]
  decide

theorem archMsg_ne_osMsg (p a : String) : archMsg p a ≠ osMsg p a := by
  intro h
  have hd : (archMsg p a).data.take 13 = (osMsg p a).data.take 13 := by rw [h]
  rw [archMsg_take13, osMsg_take13] at hd
  exact absurd hd (by decide)

theorem resolveNodeName_mem (p a : String) (m : Bool)
    (h : (p, a) ∈ supportTable) : ∃ s, resolveNodeName p a m = .ok s := by
  fin_cases h <;> cases m <;> exact ⟨_, rfl⟩

theorem resolveNodeName_not_mem (p a : String) (m : Bool)
    (h : (p, a) ∉ supportTable) :
    resolveNodeName p a m =
      .error (.unsupported (if osSupported p then archMsg p a else osMsg p a)) := by
  simp only [supportTable, List.mem_cons, List.mem_singleton, Prod.mk.injEq,
    List.not_mem_nil, or_false, not_or, not_and] at h
  obtain ⟨h1, h2, h3, h4, h5, h6, h7, h8, h9, h10, h11⟩ := h
  by_cases hp1 : p = "android"
  · subst hp1
    simp [resolveNodeName, osSupported, archMsg, h1 rfl, h2 rfl]
  by_cases hp2 : p = "win32"
  · subst hp2
    simp [resolveNodeName, osSupported, archMsg, h3 rfl, h4 rfl, h5 rfl]
  by_cases hp3 : p = "darwin"
  · subst hp3
    simp [resolveNodeName, osSupported, archMsg, h6 rfl, h7 rfl]
  by_cases hp4 : p = "freebsd"
  · subst hp4
    simp [resolveNodeName, osSupported, archMsg, h8 rfl]
  by_cases hp5 : p = "linux"
  · subst hp5
    simp [resolveNodeName, osSupported, archMsg, h9 rfl, h10 rfl, h11 rfl]
  · simp [resolveNodeName, osSupported, osMsg, hp1, hp2, hp3, hp4, hp5]

/-- The message of the map-based resolver when the OS is known but the
architecture is not (src/unnamed/part_000 lines 161-165). -/
def mapArchMsg (p a : String) : String :=
  "Unsupported architecture on " ++ p ++ ": " ++ a

theorem resolveNodeNameMap_mem (p a : String) (m : Bool)
    (h : (p, a) ∈ supportTable) :
    ∃ s, resolveNodeNameMap p a m = .ok s ∧ resolveNodeName p a m = .ok s := by
  fin_cases h <;> cases m <;> exact ⟨_, rfl, rfl⟩

theorem resolveNodeNameMap_not_mem (p a : String) (m : Bool)
    (h : (p, a) ∉ supportTable) :
    resolveNodeNameMap p a m =
      .error (.unsupported (if osSupported p then mapArchMsg p a else osMsg p a)) := by
  simp only [supportTable, List.mem_cons, List.mem_singleton, Prod.mk.injEq,
    List.not_mem_nil, or_false, not_or, not_and] at h
  obtain ⟨h1, h2, h3, h4, h5, h6, h7, h8, h9, h10, h11⟩ := h
  by_cases hp1 : p = "android"
  · subst hp1
    have b1 := beq_eq_false_iff_ne.mpr (h1 rfl)
    have b2 := beq_eq_false_iff_ne.mpr (h2 rfl)
    simp [resolveNodeNameMap, platformArchMap, List.lookup, osSupported,
      mapArchMsg, b1, b2]
  by_cases hp2 : p = "win32"
  · subst hp2
    have b1 := beq_eq_false_iff_ne.mpr (h3 rfl)
    have b2 := beq_eq_false_iff_ne.mpr (h4 rfl)
    have b3 := beq_eq_false_iff_ne.mpr (h5 rfl)
    simp [resolveNodeNameMap, platformArchMap, List.lookup, osSupported,
      mapArchMsg, b1, b2, b3]
  by_cases hp3 : p = "darwin"
  · subst hp3
    have b1 := beq_eq_false_iff_ne.mpr (h6 rfl)
    have b2 := beq_eq_false_iff_ne.mpr (h7 rfl)
    simp [resolveNodeNameMap, platformArchMap, List.lookup, osSupported,
      mapArchMsg, b1, b2]
  by_cases hp4 : p = "freebsd"
  · subst hp4
    have b1 := beq_eq_false_iff_ne.mpr (h8 rfl)
    simp [resolveNodeNameMap, platformArchMap, List.lookup, osSupported,
      mapArchMsg, b1]
  by_cases hp5 : p = "linux"
  · subst hp5
    have b1 := beq_eq_false_iff_ne.mpr (h9 rfl)
    have b2 := beq_eq_false_iff_ne.mpr (h10 rfl)
    have b3 := beq_eq_false_iff_ne.mpr (h11 rfl)
    simp [resolveNodeNameMap, platformArchMap, List.lookup, osSupported,
      mapArchMsg, b1, b2, b3]
  · have b1 := beq_eq_false_iff_ne.mpr hp1
    have b2 := beq_eq_false_iff_ne.mpr hp2
    have b3 := beq_eq_false_iff_ne.mpr hp3
    have b4 := beq_eq_false_iff_ne.mpr hp4
    have b5 := beq_eq_false_iff_ne.mpr hp5
    simp [resolveNodeNameMap, platformArchMap, List.lookup, osSupported, osMsg,
      hp1, hp2, hp3, hp4, hp5, b1, b2, b3, b4, b5]

/-- The environment consulted by `isMusl()` (src/src/index.ts lines
106-125): whether `process.report.getReport` is available, the value of
`report.header?.glibcVersionRuntime` (a JS string or undefined, so an
`Option String`; `none` also covers a missing header), the output of
`execSync("which ldd")` (`none` when it throws), and the result of
`fs.readFileSync` on a given path (`none` when it throws). -/
structure MuslEnv where
  reportAvailable : Bool
  glibcVersionRuntime : Option String
  whichLdd : Option String
  lddRead : String → Option String

/-- JavaScript truthiness of a string-or-undefined value: `undefined` and
the empty string are falsy, every other string is truthy. -/
def jsTruthy : Option String → Bool
  | none => false
  | some s => !(s == "")

/-- JavaScript `String.prototype.includes`: substring containment. -/
def includesStr (s pat : String) : Bool :=
  decide (pat.data <:+: s.data)

/-- The libc prober `isMusl` (src/src/index.ts lines 106-125): with the
report facility available it negates the truthiness of
`report.header?.glibcVersionRuntime`; otherwise it locates `ldd` via
`which`, reads it, and looks for a musl marker, returning `true` whenever
either step throws. -/
def isMusl (env : MuslEnv) : Bool :=
  if !env.reportAvailable then
    match env.whichLdd with
    | none => true
    | some out =>
      match env.lddRead out.trim with
      | none => true
      | some contents => includesStr contents "musl"
  else
    !(jsTruthy env.glibcVersionRuntime)

/-- The I/O actions performed by the startup pipeline, in order. -/
inductive Action where
  | mkdirRecursive (dir : String)
  | statFile (filePath : String)
  | registryFetch (url : String)
  | downloadTo (url : String) (dir : String)
  | extractTar (archivePath : String)
  | requireMod (modulePath : String)
deriving DecidableEq

/-- Actions that perform a network round trip. -/
def isNetworkAction : Action → Bool
  | .registryFetch _ => true
  | .downloadTo _ _ => true
  | _ => false

/-- Actions that write file contents under the install directory. -/
def writesBytes : Action → Bool
  | .downloadTo _ _ => true
  | .extractTar _ => true
  | _ => false

/-- Outcome of the registry metadata request: the `fetch`/`json()` pair
threw, or it produced a parsed body whose `dist` field is absent (`none`)
or present with an absent/`Option` `tarball` field. -/
inductive RegistryOutcome where
  | netFail (msg : String)
  | respOk (dist : Option (Option String))

/-- Outcome of `downloader.download()`: it threw, or it returned a
`filePath` and a `downloadStatus` string. -/
inductive DownloadOutcome where
  | threw (msg : String)
  | finished (filePath : String) (downloadStatus : String)

/-- Outcome of the extraction streams: the tar stream emitted `error`
with the given message, or it emitted `finish`. -/
inductive ExtractOutcome where
  | streamError (msg : String)
  | finish

/-- The native module as far as the pipeline observes it: `loadMsg` is the
message of the error thrown by `nativeBinding.load()`, or `none` when the
call returns normally. -/
structure NativeBinding where
  loadMsg : Option String
deriving DecidableEq

/-- The whole environment a startup run reads from. -/
structure Env where
  platform : String
  arch : String
  muslEnv : MuslEnv
  localFileExisted : Bool
  registry : RegistryOutcome
  download : DownloadOutcome
  extraction : ExtractOutcome
  requireOutcome : Except String NativeBinding

/-- Replace the first occurrence of `pat` in a character list by `rep`. -/
def replaceFirstChars (pat rep : List Char) : List Char → List Char
  | [] => []
  | c :: cs =>
    if pat.isPrefixOf (c :: cs) then rep ++ (c :: cs).drop pat.length
    else c :: replaceFirstChars pat rep cs

/-- JavaScript `String.prototype.replace` with a string pattern replaces
only the first occurrence. -/
def jsReplaceFirst (s pat rep : String) : String :=
  ⟨replaceFirstChars pat.data rep.data s.data⟩

/-- The registry metadata URL built by `handleFile`
(src/unnamed/part_001 line 160). -/
def registryUrl (nodeName : String) : String :=
  "https://registry.npmjs.org/@node-rs/" ++ jsReplaceFirst nodeName "." "-" ++ "/latest"

/-- `path.join` for separator-free segments. -/
def pathJoin (a b : String) : String := a ++ "/" ++ b

/-- The path `path.join(nodeDir, "package", nodeName + ".node")` checked
and required by `getNativeBinding`. -/
def nodePathFor (nodeDir nodeName : String) : String :=
  pathJoin (pathJoin nodeDir "package") (nodeName ++ ".node")

/-- The `instanceof DownloadError` test. -/
def isDownloadError : JsError → Bool
  | .download _ => true
  | _ => false

/-- `handleFile` (src/unnamed/part_001 lines 159-195): fetch the registry
metadata, read `data.dist.tarball`, download the tarball into `nodeDir`
and extract it when the status is COMPLETE; every failure inside the
download/extract `try` block is re-wrapped by its `catch` into a
`DownloadError` whose message appends the caught message. -/
def handleFile (env : Env) (nodeDir nodeName : String) :
    List Action × Except JsError Unit :=
  let url := registryUrl nodeName
  match env.registry with
  | .netFail msg =>
      ([.registryFetch url],
       .error (.download ("Failed to fetch from URL: " ++ msg)))
  | .respOk dist =>
    match dist with
    | none =>
        ([.registryFetch url],
         .error (.typeError "Cannot read properties of undefined (reading tarball)"))
    | some tarball =>
      if jsTruthy tarball = false then
        ([.registryFetch url], .error (.download "Failed to get File url"))
      else
        let tarballUrl := tarball.getD ""
        match env.download with
        | .threw msg =>
            ([.registryFetch url, .downloadTo tarballUrl nodeDir],
             .error (.download ("Failed to download the binary file: " ++ msg)))
        | .finished filePath downloadStatus =>
          if downloadStatus = "COMPLETE" then
            match env.extraction with
            | .streamError msg =>
                ([.registryFetch url, .downloadTo tarballUrl nodeDir,
                  .extractTar filePath],
                 .error (.download ("Failed to download the binary file: " ++ msg)))
            | .finish =>
                ([.registryFetch url, .downloadTo tarballUrl nodeDir,
                  .extractTar filePath],
                 .ok ())
          else
            ([.registryFetch url, .downloadTo tarballUrl nodeDir],
             .error (.download "Failed to download the binary file: Download was aborted"))

/-- `getNativeBinding` (src/src/index.ts lines 127-229): resolve the node
name, check whether the local file exists, call `handleFile` only when it
does not, then `require` the module; inside the `catch`, a `DownloadError`
is rethrown as-is and every other failure becomes a generic
`Failed to use ...` error. -/
def getNativeBinding (env : Env) (nodeDir : String) :
    List Action × Except JsError NativeBinding :=
  match resolveNodeName env.platform env.arch (isMusl env.muslEnv) with
  | .error e => ([], .error e)
  | .ok nodeName =>
    let nodePath := nodePathFor nodeDir nodeName
    let failUse : JsError :=
      .generic ("Failed to use " ++ nodePath ++ " on " ++ env.platform ++ "-" ++ env.arch)
    if env.localFileExisted then
      match env.requireOutcome with
      | .ok nb => ([.statFile nodePath, .requireMod nodePath], .ok nb)
      | .error _ => ([.statFile nodePath, .requireMod nodePath], .error failUse)
    else
      match handleFile env nodeDir nodeName with
      | (tr, .error e) =>
          (.statFile nodePath :: tr,
           .error (if isDownloadError e then e else failUse))
      | (tr, .ok _) =>
        match env.requireOutcome with
        | .ok nb =>
            (.statFile nodePath :: (tr ++ [.requireMod nodePath]), .ok nb)
        | .error _ =>
            (.statFile nodePath :: (tr ++ [.requireMod nodePath]), .error failUse)

/-- `Jieba.start` (src/src/index.ts lines 70-103): resolve the install
directory, `mkdir` it recursively, obtain the native binding (rethrowing
its error unchanged after logging), then call `nativeBinding.load()`,
swallowing exactly the message
`Jieba was loaded, could not load again` and rethrowing any other. -/
def start (env : Env) (baseDir nodeBinaryPath : String) :
    List Action × Except JsError Unit :=
  let nodeDir := pathJoin baseDir nodeBinaryPath
  match getNativeBinding env nodeDir with
  | (tr, .error e) => (.mkdirRecursive nodeDir :: tr, .error e)
  | (tr, .ok nb) =>
    match nb.loadMsg with
    | none => (.mkdirRecursive nodeDir :: tr, .ok ())
    | some msg =>
      if msg = "Jieba was loaded, could not load again"
      then (.mkdirRecursive nodeDir :: tr, .ok ())
      else (.mkdirRecursive nodeDir :: tr, .error (.generic msg))

/-- C1: platform resolution is total over the fixed support table and
fails closed outside it: every (OS, architecture) pair of the table
deterministically yields its documented ArtifactId, every pair outside the
table yields an UnsupportedError and never a value, and the error message
when the OS is absent from the table is distinct from the message when the
OS is known but the architecture is absent; there is no fallback
artifact. -/
theorem c1_resolution_total_and_fail_closed (p a : String) (m : Bool) :
    (resolveNodeName "android" "arm64" m = .ok "jieba.android-arm64") ∧
    (resolveNodeName "android" "arm" m = .ok "jieba.android-arm-eabi") ∧
    (resolveNodeName "win32" "x64" m = .ok "jieba.win32-x64-msvc") ∧
    (resolveNodeName "win32" "ia32" m = .ok "jieba.win32-ia32-msvc") ∧
    (resolveNodeName "win32" "arm64" m = .ok "jieba.win32-arm64-msvc") ∧
    (resolveNodeName "darwin" "x64" m = .ok "jieba.darwin-x64") ∧
    (resolveNodeName "darwin" "arm64" m = .ok "jieba.darwin-arm64") ∧
    (resolveNodeName "freebsd" "x64" m = .ok "jieba.freebsd-x64") ∧
    (resolveNodeName "linux" "x64" m =
      .ok (if m then "jieba.linux-x64-musl" else "jieba.linux-x64-gnu")) ∧
    (resolveNodeName "linux" "arm64" m =
      .ok (if m then "jieba.linux-arm64-musl" else "jieba.linux-arm64-gnu")) ∧
    (resolveNodeName "linux" "arm" m = .ok "jieba.linux-arm-gnueabihf") ∧
    ((p, a) ∈ supportTable → ∃ s, resolveNodeName p a m = .ok s) ∧
    ((p, a) ∉ supportTable →
      resolveNodeName p a m =
        .error (.unsupported (if osSupported p then archMsg p a else osMsg p a)) ∧
      archMsg p a ≠ osMsg p a) := by
  refine ⟨by cases m <;> rfl, by cases m <;> rfl, by cases m <;> rfl,
    by cases m <;> rfl, by cases m <;> rfl, by cases m <;> rfl,
    by cases m <;> rfl, by cases m <;> rfl, by cases m <;> rfl,
    by cases m <;> rfl, by cases m <;> rfl,
    resolveNodeName_mem p a m,
    fun h => ⟨resolveNodeName_not_mem p a m h, archMsg_ne_osMsg p a⟩⟩

/-- Witness for C1: a supported pair resolves, and the unsupported OS
plan9 yields an UnsupportedError with the OS-absent message. -/
theorem c1_witness :
    (∃ s, resolveNodeName "win32" "x64" true = .ok s) ∧
    resolveNodeName "plan9" "x64" true = .error (.unsupported (osMsg "plan9" "x64")) := by
  constructor
  · exact (c1_resolution_total_and_fail_closed "win32" "x64" true).2.2.2.2.2.2.2.2.2.2.2.1
      (by decide)
  · have h := ((c1_resolution_total_and_fail_closed "plan9" "x64" true).2.2.2.2.2.2.2.2.2.2.2.2
      (by decide)).1
    simpa using h

/-- C2: for the two dual-libc Linux architectures, resolution returns the
musl ArtifactId variant exactly when the prober result is true and the
gnu variant when it is false, whichever prober strategy produced the
boolean; in particular linux/x64 with prober false gives
jieba.linux-x64-gnu and with prober true gives jieba.linux-x64-musl. -/
theorem c2_linux_libc_variant (menv : MuslEnv) :
    (∀ arch, arch = "x64" ∨ arch = "arm64" →
      resolveNodeName "linux" arch (isMusl menv) =
        .ok ("jieba.linux-" ++ arch ++ (if isMusl menv then "-musl" else "-gnu"))) ∧
    resolveNodeName "linux" "x64" false = .ok "jieba.linux-x64-gnu" ∧
    resolveNodeName "linux" "x64" true = .ok "jieba.linux-x64-musl" := by
  refine ⟨?_, rfl, rfl⟩
  intro arch h
  rcases h with rfl | rfl <;> cases hm : isMusl menv <;> simp [resolveNodeName]

/-- Witness for C2: applied to a report-strategy environment whose
glibc version field is present (glibc, so the gnu variant) and to a
fallback-strategy environment whose ldd contains musl. -/
theorem c2_witness :
    resolveNodeName "linux" "x64"
      (isMusl ⟨true, some "2.31", none, fun _ => none⟩) = .ok "jieba.linux-x64-gnu" ∧
    resolveNodeName "linux" "arm64"
      (isMusl ⟨false, none, some "/usr/bin/ldd", fun _ => some "musl loader"⟩) =
        .ok "jieba.linux-arm64-musl" := by
  constructor
  · have h := (c2_linux_libc_variant ⟨true, some "2.31", none, fun _ => none⟩).1
      "x64" (Or.inl rfl)
    rw [show isMusl ⟨true, some "2.31", none, fun _ => none⟩ = false from rfl] at h
    simpa using h
  · have h := (c2_linux_libc_variant
      ⟨false, none, some "/usr/bin/ldd", fun _ => some "musl loader"⟩).1
      "arm64" (Or.inr rfl)
    rw [show isMusl ⟨false, none, some "/usr/bin/ldd", fun _ => some "musl loader"⟩ = true
      from by decide] at h
    simpa using h

/-- C10: the switch-based resolver and the map-based resolver of the first
historical revision are equivalent as functions of (platform, arch,
isMusl result): they accept the same pairs, return the identical
ArtifactId on every accepted input, and both throw UnsupportedError on
every non-accepted input. -/
theorem c10_resolvers_equivalent (p a : String) (m : Bool) :
    (∀ s, resolveNodeName p a m = .ok s ↔ resolveNodeNameMap p a m = .ok s) ∧
    ((∃ e, resolveNodeName p a m = .error (.unsupported e)) ↔
      (∃ e, resolveNodeNameMap p a m = .error (.unsupported e))) ∧
    ((p, a) ∉ supportTable →
      (∃ e, resolveNodeName p a m = .error (.unsupported e)) ∧
      (∃ e, resolveNodeNameMap p a m = .error (.unsupported e))) := by
  by_cases h : (p, a) ∈ supportTable
  · obtain ⟨s0, hm, hs⟩ := resolveNodeNameMap_mem p a m h
    exact ⟨fun s => by rw [hm, hs], by rw [hm, hs], fun hn => absurd h hn⟩
  · have hn1 := resolveNodeName_not_mem p a m
    have hn2 := resolveNodeNameMap_not_mem p a m
    refine ⟨fun s => by simp [hn1 h, hn2 h], by simp [hn1 h, hn2 h], fun h2 => ?_⟩
    exact ⟨⟨_, hn1 h⟩, ⟨_, hn2 h⟩⟩

/-- Witness for C10: the map-based resolver agrees on a supported pair and
throws UnsupportedError on plan9. -/
theorem c10_witness :
    resolveNodeNameMap "win32" "x64" true = .ok "jieba.win32-x64-msvc" ∧
    (∃ e, resolveNodeNameMap "plan9" "x64" true = .error (.unsupported e)) := by
  constructor
  · exact ((c10_resolvers_equivalent "win32" "x64" true).1 "jieba.win32-x64-msvc").mp rfl
  · exact ((c10_resolvers_equivalent "plan9" "x64" true).2.2 (by decide)).2

theorem start_eq (env : Env) (baseDir nbp : String) :
    start env baseDir nbp =
      match getNativeBinding env (pathJoin baseDir nbp) with
      | (tr, .error e) => (.mkdirRecursive (pathJoin baseDir nbp) :: tr, .error e)
      | (tr, .ok nb) =>
        match nb.loadMsg with
        | none => (.mkdirRecursive (pathJoin baseDir nbp) :: tr, .ok ())
        | some msg =>
          if msg = "Jieba was loaded, could not load again"
          then (.mkdirRecursive (pathJoin baseDir nbp) :: tr, .ok ())
          else (.mkdirRecursive (pathJoin baseDir nbp) :: tr, .error (.generic msg)) :=
  rfl

/-- C3: when the artifact file already exists locally (the existence
check succeeds), getNativeBinding performs zero network calls — handleFile
is never invoked, so no registry lookup, download or extraction appears in
the trace — and proceeds directly to requiring the module. -/
theorem c3_local_file_skips_network (env : Env) (nodeDir nodeName : String)
    (hex : env.localFileExisted = true)
    (hres : resolveNodeName env.platform env.arch (isMusl env.muslEnv) = .ok nodeName) :
    (getNativeBinding env nodeDir).1 =
      [.statFile (nodePathFor nodeDir nodeName),
       .requireMod (nodePathFor nodeDir nodeName)] ∧
    ∀ act ∈ (getNativeBinding env nodeDir).1, isNetworkAction act = false := by
  unfold getNativeBinding
  rw [hres]
  rcases hro : env.requireOutcome with msg | nb <;>
    simp [hex, hro, isNetworkAction]

/-- Witness for C3 at a concrete environment whose artifact file exists. -/
theorem c3_witness :
    (getNativeBinding
      ⟨"darwin", "arm64", ⟨true, some "2.31", none, fun _ => none⟩, true,
       .netFail "offline", .threw "offline", .streamError "offline", .ok ⟨none⟩⟩
      "base/node-rs/jieba").1 =
      [.statFile "base/node-rs/jieba/package/jieba.darwin-arm64.node",
       .requireMod "base/node-rs/jieba/package/jieba.darwin-arm64.node"] := by
  have h := (c3_local_file_skips_network
    ⟨"darwin", "arm64", ⟨true, some "2.31", none, fun _ => none⟩, true,
     .netFail "offline", .threw "offline", .streamError "offline", .ok ⟨none⟩⟩
    "base/node-rs/jieba" "jieba.darwin-arm64" rfl rfl).1
  simpa [nodePathFor, pathJoin] using h

/-- C4 counterexample: when the registry responds with a parseable body
whose dist object lacks the tarball field, handleFile throws the very same
DownloadError class that a network failure produces — the code has no
separate RegistryError kind, so the claimed distinguishability from
download failures is false. -/
theorem c4_counterexample :
    thrownKind (handleFile
      ⟨"linux", "x64", ⟨true, none, none, fun _ => none⟩, false,
       .respOk (some none), .threw "never", .streamError "never", .error "never"⟩
      "dir" "jieba.linux-x64-musl").2 = some "DownloadError" ∧
    thrownKind (handleFile
      ⟨"linux", "x64", ⟨true, none, none, fun _ => none⟩, false,
       .netFail "socket hang up", .threw "never", .streamError "never", .error "never"⟩
      "dir" "jieba.linux-x64-musl").2 = some "DownloadError" :=
  ⟨rfl, rfl⟩

/-- C4 amended: on a success response whose dist object lacks the tarball
URL field, handleFile fails with DownloadError "Failed to get File url" —
the same DownloadError class used for download failures, since the code
has no RegistryError kind — and its trace holds only the registry fetch,
so zero bytes are written to the install directory; a body lacking the
whole dist object instead escapes as an uncaught TypeError. -/
theorem c4_amended_missing_tarball_field (env : Env) (nodeDir nodeName : String) :
    (env.registry = .respOk (some none) →
      handleFile env nodeDir nodeName =
        ([.registryFetch (registryUrl nodeName)],
         .error (.download "Failed to get File url")) ∧
      ∀ act ∈ (handleFile env nodeDir nodeName).1, writesBytes act = false) ∧
    (env.registry = .respOk none →
      handleFile env nodeDir nodeName =
        ([.registryFetch (registryUrl nodeName)],
         .error (.typeError "Cannot read properties of undefined (reading tarball)"))) := by
  constructor
  · intro h
    constructor
    · simp [handleFile, h, jsTruthy]
    · simp [handleFile, h, jsTruthy, writesBytes]
  · intro h
    simp [handleFile, h]

/-- Witness for C4 amended at a concrete environment. -/
theorem c4_amended_witness :
    handleFile
      ⟨"linux", "x64", ⟨true, none, none, fun _ => none⟩, false,
       .respOk (some none), .threw "never", .streamError "never", .error "never"⟩
      "dir" "jieba.linux-x64-musl" =
      ([.registryFetch "https://registry.npmjs.org/@node-rs/jieba-linux-x64-musl/latest"],
       .error (.download "Failed to get File url")) := by
  have h := ((c4_amended_missing_tarball_field
    ⟨"linux", "x64", ⟨true, none, none, fun _ => none⟩, false,
     .respOk (some none), .threw "never", .streamError "never", .error "never"⟩
    "dir" "jieba.linux-x64-musl").1 rfl).1
  rw [show registryUrl "jieba.linux-x64-musl" =
    "https://registry.npmjs.org/@node-rs/jieba-linux-x64-musl/latest" from by decide] at h
  exact h

/-- C5: when the downloader returns without throwing but its status is not
COMPLETE, handleFile raises a DownloadError (the internal
"Download was aborted" throw, re-wrapped by the catch into
"Failed to download the binary file: Download was aborted") and the
extraction step is never invoked. -/
theorem c5_aborted_download (env : Env) (nodeDir nodeName fp st t : String)
    (hreg : env.registry = .respOk (some (some t))) (ht : t ≠ "")
    (hdl : env.download = .finished fp st) (hst : st ≠ "COMPLETE") :
    (handleFile env nodeDir nodeName).2 =
      .error (.download "Failed to download the binary file: Download was aborted") ∧
    ∀ path, Action.extractTar path ∉ (handleFile env nodeDir nodeName).1 := by
  have bt := beq_eq_false_iff_ne.mpr ht
  constructor
  · simp [handleFile, hreg, hdl, jsTruthy, bt, hst]
  · intro path
    simp [handleFile, hreg, hdl, jsTruthy, bt, hst]

/-- Witness for C5 at a concrete aborted download. -/
theorem c5_witness :
    (handleFile
      ⟨"linux", "x64", ⟨true, none, none, fun _ => none⟩, false,
       .respOk (some (some "https://registry.npmjs.org/t.tgz")),
       .finished "/tmp/t.tgz" "ABORTED", .streamError "never", .error "never"⟩
      "dir" "jieba.linux-x64-musl").2 =
      .error (.download "Failed to download the binary file: Download was aborted") :=
  (c5_aborted_download
    ⟨"linux", "x64", ⟨true, none, none, fun _ => none⟩, false,
     .respOk (some (some "https://registry.npmjs.org/t.tgz")),
     .finished "/tmp/t.tgz" "ABORTED", .streamError "never", .error "never"⟩
    "dir" "jieba.linux-x64-musl" "/tmp/t.tgz" "ABORTED"
    "https://registry.npmjs.org/t.tgz" rfl (by decide) rfl (by decide)).1

/-- C6 counterexample: a decompression/unpack stream failure does not
surface as an ExtractionError kind distinct from DownloadError — the
catch in handleFile re-wraps it into a DownloadError (and the code has no
ExtractionError class at all), so the thrown kind equals the one of a
transport failure. -/
theorem c6_counterexample :
    (handleFile
      ⟨"linux", "x64", ⟨true, none, none, fun _ => none⟩, false,
       .respOk (some (some "https://registry.npmjs.org/t.tgz")),
       .finished "/tmp/t.tgz" "COMPLETE",
       .streamError "unexpected end of file", .error "never"⟩
      "dir" "jieba.linux-x64-musl").2 =
      .error (.download "Failed to download the binary file: unexpected end of file") ∧
    thrownKind (handleFile
      ⟨"linux", "x64", ⟨true, none, none, fun _ => none⟩, false,
       .respOk (some (some "https://registry.npmjs.org/t.tgz")),
       .finished "/tmp/t.tgz" "COMPLETE",
       .streamError "unexpected end of file", .error "never"⟩
      "dir" "jieba.linux-x64-musl").2 = some "DownloadError" :=
  ⟨rfl, rfl⟩

/-- C6 amended: every failure inside the download/extract try of handleFile
block is re-wrapped into DownloadError, so an unpack stream failure
surfaces as a DownloadError (not a distinct ExtractionError kind, which
the code does not have), while start propagates getNativeBinding errors
upward unchanged. -/
theorem c6_amended_extraction_failure_kind (env : Env)
    (nodeDir nodeName fp msg t : String)
    (hreg : env.registry = .respOk (some (some t))) (ht : t ≠ "")
    (hdl : env.download = .finished fp "COMPLETE")
    (hex : env.extraction = .streamError msg) :
    (handleFile env nodeDir nodeName).2 =
      .error (.download ("Failed to download the binary file: " ++ msg)) ∧
    thrownKind (handleFile env nodeDir nodeName).2 = some "DownloadError" ∧
    (∀ baseDir nbp e, (getNativeBinding env (pathJoin baseDir nbp)).2 = .error e →
      (start env baseDir nbp).2 = .error e) := by
  have bt := beq_eq_false_iff_ne.mpr ht
  have hmain : (handleFile env nodeDir nodeName).2 =
      .error (.download ("Failed to download the binary file: " ++ msg)) := by
    simp [handleFile, hreg, hdl, hex, jsTruthy, bt]
  refine ⟨hmain, by rw [hmain]; rfl, ?_⟩
  intro baseDir nbp e hge
  rcases hg : getNativeBinding env (pathJoin baseDir nbp) with ⟨tr, r⟩
  rw [hg] at hge
  simp at hge
  subst hge
  rw [start_eq, hg]

/-- Witness for C6 amended at a concrete stream failure. -/
theorem c6_amended_witness :
    (handleFile
      ⟨"linux", "arm64", ⟨true, none, none, fun _ => none⟩, false,
       .respOk (some (some "https://registry.npmjs.org/t.tgz")),
       .finished "/tmp/t.tgz" "COMPLETE", .streamError "bad gzip", .error "never"⟩
      "dir" "jieba.linux-arm64-musl").2 =
      .error (.download "Failed to download the binary file: bad gzip") :=
  (c6_amended_extraction_failure_kind
    ⟨"linux", "arm64", ⟨true, none, none, fun _ => none⟩, false,
     .respOk (some (some "https://registry.npmjs.org/t.tgz")),
     .finished "/tmp/t.tgz" "COMPLETE", .streamError "bad gzip", .error "never"⟩
    "dir" "jieba.linux-arm64-musl" "/tmp/t.tgz" "bad gzip"
    "https://registry.npmjs.org/t.tgz" rfl (by decide) rfl rfl).1

/-- C7: a load attempt whose failure message is exactly the sentinel
"Jieba was loaded, could not load again" is swallowed and start treats
loading as successful; a load failure with any other message propagates
out of start as an error. -/
theorem c7_already_loaded_sentinel (env : Env) (baseDir nbp : String)
    (nb : NativeBinding)
    (hok : (getNativeBinding env (pathJoin baseDir nbp)).2 = .ok nb) :
    (nb.loadMsg = some "Jieba was loaded, could not load again" →
      (start env baseDir nbp).2 = .ok ()) ∧
    (nb.loadMsg = none → (start env baseDir nbp).2 = .ok ()) ∧
    (∀ msg, nb.loadMsg = some msg →
      msg ≠ "Jieba was loaded, could not load again" →
      (start env baseDir nbp).2 = .error (.generic msg)) := by
  rcases hg : getNativeBinding env (pathJoin baseDir nbp) with ⟨tr, r⟩
  rw [hg] at hok
  simp at hok
  subst hok
  refine ⟨fun h => by rw [start_eq, hg]; simp [h],
    fun h => by rw [start_eq, hg]; simp [h],
    fun msg h hne => by rw [start_eq, hg]; simp [h, hne]⟩

/-- Witness for C7: with a binding whose load() throws exactly the
sentinel message, start succeeds. -/
theorem c7_witness :
    (start
      ⟨"darwin", "x64", ⟨true, some "2.31", none, fun _ => none⟩, true,
       .netFail "offline", .threw "offline", .streamError "offline",
       .ok ⟨some "Jieba was loaded, could not load again"⟩⟩
      "base" "node-rs/jieba").2 = .ok () :=
  (c7_already_loaded_sentinel
    ⟨"darwin", "x64", ⟨true, some "2.31", none, fun _ => none⟩, true,
     .netFail "offline", .threw "offline", .streamError "offline",
     .ok ⟨some "Jieba was loaded, could not load again"⟩⟩
    "base" "node-rs/jieba"
    ⟨some "Jieba was loaded, could not load again"⟩ rfl).1 rfl

/-- C8 counterexample: with the report facility available and the glibc
version field present but equal to the empty string, isMusl returns true
although the field is not absent — the code negates JS truthiness, not
presence — refuting "returns true exactly when the glibc version field is
absent". -/
theorem c8_counterexample :
    isMusl ⟨true, some "", none, fun _ => none⟩ = true ∧
    MuslEnv.glibcVersionRuntime ⟨true, some "", none, fun _ => none⟩ ≠ none :=
  ⟨rfl, by simp⟩

/-- C8 amended: isMusl is total and never raises; with the report
facility available it returns true exactly when the glibc version field is
absent or empty (falsy); without the facility it inspects the located ldd
binary for a musl marker and conservatively returns true whenever locating
or reading it fails. -/
theorem c8_amended_prober_total (env : MuslEnv) :
    (env.reportAvailable = true →
      (isMusl env = true ↔
        env.glibcVersionRuntime = none ∨ env.glibcVersionRuntime = some "")) ∧
    (env.reportAvailable = false →
      (env.whichLdd = none → isMusl env = true) ∧
      (∀ out, env.whichLdd = some out → env.lddRead out.trim = none →
        isMusl env = true) ∧
      (∀ out c, env.whichLdd = some out → env.lddRead out.trim = some c →
        isMusl env = includesStr c "musl")) := by
  constructor
  · intro h
    rcases hg : env.glibcVersionRuntime with _ | s
    · simp [isMusl, h, hg, jsTruthy]
    · simp [isMusl, h, hg, jsTruthy]
  · intro h
    refine ⟨fun hw => by simp [isMusl, h, hw],
      fun out hw hr => by simp [isMusl, h, hw, hr],
      fun out c hw hr => by simp [isMusl, h, hw, hr]⟩

/-- Witness for C8 amended: the fallback strategy with a missing ldd
helper returns the conservative musl default. -/
theorem c8_amended_witness :
    isMusl ⟨false, none, none, fun _ => none⟩ = true :=
  ((c8_amended_prober_total ⟨false, none, none, fun _ => none⟩).2 rfl).1 rfl

/-- C9 counterexample: on the unsupported OS plan9, start does raise
UnsupportedError with no network access, but the recursive creation of the
install directory — a filesystem write — is performed before platform
resolution, so a filesystem access (directory creation) precedes the
failure, refuting the claim. -/
theorem c9_counterexample :
    start
      ⟨"plan9", "x64", ⟨true, none, none, fun _ => none⟩, false,
       .netFail "never", .threw "never", .streamError "never", .error "never"⟩
      "base" "node-rs/jieba" =
      ([.mkdirRecursive "base/node-rs/jieba"],
       .error (.unsupported "Unsupported OS: plan9, architecture: x64")) ∧
    Action.mkdirRecursive "base/node-rs/jieba" ∈
      (start
        ⟨"plan9", "x64", ⟨true, none, none, fun _ => none⟩, false,
         .netFail "never", .threw "never", .streamError "never", .error "never"⟩
        "base" "node-rs/jieba").1 := by
  constructor
  · rfl
  · rw [show (start
      ⟨"plan9", "x64", ⟨true, none, none, fun _ => none⟩, false,
       .netFail "never", .threw "never", .streamError "never", .error "never"⟩
      "base" "node-rs/jieba").1 = [.mkdirRecursive "base/node-rs/jieba"] from rfl]
    exact List.mem_singleton.mpr rfl

/-- C9 amended: on an OS absent from the support table, start raises
UnsupportedError before any network access (no registry request, no
download) and before any artifact filesystem access; the only action
preceding the failure is the recursive creation of the install directory,
which start performs before resolution. -/
theorem c9_amended_unsupported_os (env : Env) (baseDir nbp : String)
    (h : osSupported env.platform = false) :
    (start env baseDir nbp).2 =
      .error (.unsupported (osMsg env.platform env.arch)) ∧
    (start env baseDir nbp).1 = [.mkdirRecursive (pathJoin baseDir nbp)] ∧
    ∀ act ∈ (start env baseDir nbp).1, isNetworkAction act = false := by
  have h5 : (((¬(env.platform = "android") ∧ ¬(env.platform = "win32")) ∧
      ¬(env.platform = "darwin")) ∧ ¬(env.platform = "freebsd")) ∧
      ¬(env.platform = "linux") := by
    simpa [osSupported, not_or] using h
  obtain ⟨⟨⟨⟨p1, p2⟩, p3⟩, p4⟩, p5⟩ := h5
  have hmem : (env.platform, env.arch) ∉ supportTable := by
    simp [supportTable, p1, p2, p3, p4, p5]
  have hr := resolveNodeName_not_mem env.platform env.arch (isMusl env.muslEnv) hmem
  rw [h] at hr
  simp only [Bool.false_eq_true, if_false] at hr
  have hgb : getNativeBinding env (pathJoin baseDir nbp) =
      ([], .error (.unsupported (osMsg env.platform env.arch))) := by
    unfold getNativeBinding
    rw [hr]
  rw [start_eq, hgb]
  simp [isNetworkAction]

/-- Witness for C9 amended at the plan9 environment. -/
theorem c9_amended_witness :
    (start
      ⟨"plan9", "arm", ⟨true, none, none, fun _ => none⟩, false,
       .netFail "never", .threw "never", .streamError "never", .error "never"⟩
      "base" "node-rs/jieba").2 =
      .error (.unsupported (osMsg "plan9" "arm")) :=
  (c9_amended_unsupported_os
    ⟨"plan9", "arm", ⟨true, none, none, fun _ => none⟩, false,
     .netFail "never", .threw "never", .streamError "never", .error "never"⟩
    "base" "node-rs/jieba" rfl).1

end KoishiJieba
